import Mathlib

/-
Shallow embedding of the falcon GraphQL HTTP transport adapter
(falcon_graphql_server.py): request normalization (URL parameters vs request
body, per content type), delegation to an abstract execution engine, and
response formatting.  External collaborators (the Python json module's loads,
and the graphene engine's schema.execute) are abstracted as function
parameters; everything the repository's own code does is translated directly.
-/

/- JSON values, as produced by json.loads with object_pairs_hook=OrderedDict:
   objects keep their key order as an association list. -/
inductive Json where
  | null
  | bool (b : Bool)
  | num (n : Int)
  | str (s : String)
  | arr (elems : List Json)
  | obj (fields : List (String × Json))

/- Structural equality on Json values, modelling Python equality as used by
   the membership operator on lists. -/
mutual
def Json.beq : Json → Json → Bool
  | .null, .null => true
  | .bool a, .bool b => a == b
  | .num a, .num b => a == b
  | .str a, .str b => a == b
  | .arr a, .arr b => Json.beqList a b
  | .obj a, .obj b => Json.beqFields a b
  | _, _ => false

def Json.beqList : List Json → List Json → Bool
  | [], [] => true
  | a :: as, b :: bs => Json.beq a b && Json.beqList as bs
  | _, _ => false

def Json.beqFields : List (String × Json) → List (String × Json) → Bool
  | [], [] => true
  | (ka, va) :: as, (kb, vb) :: bs => ka == kb && Json.beq va vb && Json.beqFields as bs
  | _, _ => false
end

instance : BEq Json := ⟨Json.beq⟩

/- Python truthiness of a value decoded from JSON: None, False, 0, the empty
   string, the empty list and the empty dict are falsy. -/
def pyTruthy : Json → Bool
  | .null => false
  | .bool b => b
  | .num n => n != 0
  | .str s => s != ""
  | .arr xs => !xs.isEmpty
  | .obj kvs => !kvs.isEmpty

/- Lowercase hexadecimal digit, for the \uXXXX escapes of json.dumps. -/
def hexDigit (n : Nat) : Char :=
  if n < 10 then Char.ofNat (48 + n) else Char.ofNat (87 + n % 16)

/- A \uXXXX escape sequence (n < 0x10000). -/
def uEscape (n : Nat) : List Char :=
  ['\\', 'u', hexDigit (n / 4096 % 16), hexDigit (n / 256 % 16),
   hexDigit (n / 16 % 16), hexDigit (n % 16)]

/- Escaping of a single character inside a JSON string literal, as done by
   json.dumps with its default ensure_ascii=True: the two-character escapes
   for quote, backslash and common control characters, \uXXXX for the other
   control and all non-ASCII characters (surrogate pairs above the BMP). -/
def escapeChar (c : Char) : List Char :=
  if c == Char.ofNat 34 then ['\\', Char.ofNat 34]
  else if c == '\\' then ['\\', '\\']
  else if c == '\n' then ['\\', 'n']
  else if c == '\r' then ['\\', 'r']
  else if c == '\t' then ['\\', 't']
  else if c.toNat == 8 then ['\\', 'b']
  else if c.toNat == 12 then ['\\', 'f']
  else if c.toNat < 32 then uEscape c.toNat
  else if c.toNat < 127 then [c]
  else if c.toNat < 65536 then uEscape c.toNat
  else uEscape (55296 + (c.toNat - 65536) / 1024) ++
       uEscape (56320 + (c.toNat - 65536) % 1024)

def escapeString (s : String) : String :=
  ⟨(s.data.map escapeChar).flatten⟩

def quoteString (s : String) : String :=
  "\x22" ++ escapeString s ++ "\x22"

/- json.dumps with separators=(',', ':') — the compact serialization used for
   every response body in the source. -/
mutual
def Json.dumps : Json → String
  | .null => "null"
  | .bool true => "true"
  | .bool false => "false"
  | .num n => toString n
  | .str s => quoteString s
  | .arr xs => "[" ++ Json.dumpsElems xs ++ "]"
  | .obj kvs => "\x7b" ++ Json.dumpsFields kvs ++ "\x7d"

def Json.dumpsElems : List Json → String
  | [] => ""
  | [x] => Json.dumps x
  | x :: xs => Json.dumps x ++ "," ++ Json.dumpsElems xs

def Json.dumpsFields : List (String × Json) → String
  | [] => ""
  | [(k, v)] => quoteString k ++ ":" ++ Json.dumps v
  | (k, v) :: kvs => quoteString k ++ ":" ++ Json.dumps v ++ "," ++ Json.dumpsFields kvs
end

/- Python repr of a value decoded by json.loads with
   object_pairs_hook=OrderedDict (Python 3.6 era): lists render with a comma
   and space, decoded objects render in the OrderedDict([('k', v)]) form.
   String escaping inside repr is omitted (only plain strings occur here). -/
mutual
def pyRepr : Json → String
  | .null => "None"
  | .bool true => "True"
  | .bool false => "False"
  | .num n => toString n
  | .str s => "\x27" ++ s ++ "\x27"
  | .arr xs => "[" ++ pyReprElems xs ++ "]"
  | .obj kvs => "OrderedDict([" ++ pyReprFields kvs ++ "])"

def pyReprElems : List Json → String
  | [] => ""
  | [x] => pyRepr x
  | x :: xs => pyRepr x ++ ", " ++ pyReprElems xs

def pyReprFields : List (String × Json) → String
  | [] => ""
  | [(k, v)] => "(\x27" ++ k ++ "\x27, " ++ pyRepr v ++ ")"
  | (k, v) :: kvs => "(\x27" ++ k ++ "\x27, " ++ pyRepr v ++ "), " ++ pyReprFields kvs
end

/- Python str() of a value decoded from JSON: the identity on strings,
   repr-like rendering otherwise (this is the coercion the source applies as
   str(post_data['query']) and the like). -/
def pyStr : Json → String
  | .str s => s
  | v => pyRepr v

/- Python substring containment (the needle occurs in the haystack), used for
   the source's content-type tests such as 'application/json' in
   req.content_type. -/
def charsLeadWith : List Char → List Char → Bool
  | [], _ => true
  | _ :: _, [] => false
  | a :: as, b :: bs => a == b && charsLeadWith as bs

def charsHaveSub (needle : List Char) : List Char → Bool
  | [] => needle.isEmpty
  | c :: cs => charsLeadWith needle (c :: cs) || charsHaveSub needle cs

def strContains (haystack needle : String) : Bool :=
  charsHaveSub needle.data haystack.data

/- Python membership test key in value, for a value decoded from JSON:
   key lookup on dicts, substring test on strings, element test on lists, and
   a TypeError on the remaining types. -/
def pyContains (k : String) : Json → Except String Bool
  | .obj kvs => .ok (kvs.any (fun p => p.1 == k))
  | .str s => .ok (strContains s k)
  | .arr xs => .ok (xs.any (fun e => e == Json.str k))
  | _ => .error "TypeError"

/- Python indexing value[key] with a string key: dict lookup (KeyError when
   missing), TypeError on every other type. -/
def pyIndex (k : String) : Json → Except String Json
  | .obj kvs => match List.lookup k kvs with
    | some v => .ok v
    | none => .error "KeyError"
  | _ => .error "TypeError"

/- The inbound HTTP request, as seen by a falcon responder: req.params (URL
   query parameters, with form-urlencoded bodies already merged in by the
   framework per auto_parse_form_urlencoded), the declared content type, the
   declared content length, and the decoded body text (req.stream.read()). -/
structure Req where
  params : List (String × String)
  contentType : Option String
  contentLength : Option Nat
  body : String

/- Test 'k' in req.params and req.params['k'] — the key is present with a
   non-empty (truthy) value. -/
def hasTruthyParam (req : Req) (k : String) : Bool :=
  match List.lookup k req.params with
  | some v => v != ""
  | none => false

def paramVal (req : Req) (k : String) : String :=
  (List.lookup k req.params).getD ""

/- Test req.content_type and s in req.content_type. -/
def contentTypeContains (req : Req) (s : String) : Bool :=
  match req.contentType with
  | some ct => strContains ct s
  | none => false

/- Test req.content_length in (None, 0). -/
def contentLengthZero (req : Req) : Bool :=
  match req.contentLength with
  | none => true
  | some 0 => true
  | some (_ + 1) => false

/- The result produced by the external engine's schema.execute: an optional
   data payload and a sequence of errors.  Each error is represented by its
   str() rendering, which is the only use the source makes of it. -/
structure ExecResult where
  data : Option Json
  errors : List String

/- The external collaborators: the json module's loads (None models a
   json.decoder.JSONDecodeError) and the engine's schema.execute.  The third
   argument of execute is the operation name; none models the call that omits
   the operation_name keyword.  The second is the variable_values argument,
   with none modelling Python None. -/
structure Externals where
  jsonLoads : String → Option Json
  execute : String → Option Json → Option String → ExecResult

/- The outcome of one responder invocation: either a set response (status,
   optional body, headers) or an exception escaping the responder. -/
inductive Outcome where
  | resp (status : Nat) (body : Option String) (headers : List (String × String))
  | exn (kind : String)
deriving Repr, DecidableEq

/- Body of json.dumps applied to a single-message errors envelope, as inlined
   at each normalization-failure site in the source. -/
def errListBody (msgs : List String) : String :=
  Json.dumps (Json.obj [("errors", Json.arr (msgs.map (fun m => Json.obj [("message", Json.str m)])))])

def errBody (msg : String) : String :=
  errListBody [msg]

/- Python truthiness of result.data. -/
def dataTruthy : Option Json → Bool
  | none => false
  | some v => pyTruthy v

/- Lines 321-335 / 127-141: construct the response from an ExecutionResult.
   if result.data: 200 with the data envelope; elif result.errors: 400 with
   message-only error descriptors in order; else a bare raise, which becomes
   an unhandled RuntimeError. -/
def formatResult (r : ExecResult) : Outcome :=
  match r.data with
  | some d =>
    if pyTruthy d then
      Outcome.resp 200 (some (Json.dumps (Json.obj [("data", d)]))) []
    else if !r.errors.isEmpty then
      Outcome.resp 400 (some (errListBody r.errors)) []
    else Outcome.exn "RuntimeError"
  | none =>
    if !r.errors.isEmpty then
      Outcome.resp 400 (some (errListBody r.errors)) []
    else Outcome.exn "RuntimeError"

/- Result of the normalization phase of a responder: either an early outcome
   (an error response already set, or an exception), or fall-through to the
   schema.execute call with the resolved query, variables and operation name. -/
inductive NormOut where
  | out (o : Outcome)
  | proceed (query : String) (vars : Option Json) (opName : Option String)

/- Lines 191-195 (and 87-88): the query resolved from URL parameters, when
   present and non-empty. -/
def urlQuery (req : Req) : Option String :=
  if !req.params.isEmpty && hasTruthyParam req "query" then some (paramVal req "query")
  else none

/- Lines 211-214 (and 112-115): the operation name resolved from URL
   parameters. -/
def urlOpName (req : Req) : Option String :=
  if hasTruthyParam req "operationName" then some (paramVal req "operationName") else none

/- Lines 87-115: GET normalization.  The query must be a non-empty URL
   parameter; variables, when present and non-empty, must parse as JSON and
   otherwise default to the empty-string sentinel; operationName is taken
   verbatim when present and non-empty. -/
def getNorm (ex : Externals) (req : Req) : NormOut :=
  if !req.params.isEmpty && hasTruthyParam req "query" then
    if hasTruthyParam req "variables" then
      match ex.jsonLoads (paramVal req "variables") with
      | some v => NormOut.proceed (paramVal req "query") (some v) (urlOpName req)
      | none => NormOut.out (Outcome.resp 400 (some (errBody "Variables are invalid JSON.")) [])
    else NormOut.proceed (paramVal req "query") (some (Json.str "")) (urlOpName req)
  else NormOut.out (Outcome.resp 400 (some (errBody "Must provide query string.")) [])

/- Lines 275-279: the operationName stage of the JSON-body branch.  Note the
   source tests 'operationName' in post_data without first testing post_data
   for truthiness, so a non-container body raises a TypeError here. -/
def postJsonOp (pd : Json) (q : String) (v : Option Json) (opName0 : Option String) : NormOut :=
  match opName0 with
  | some o => NormOut.proceed q v (some o)
  | none =>
    match pyContains "operationName" pd with
    | .error e => NormOut.out (Outcome.exn e)
    | .ok false => NormOut.proceed q v none
    | .ok true =>
      match pyIndex "operationName" pd with
      | .error e => NormOut.out (Outcome.exn e)
      | .ok ov =>
        if pyTruthy ov then NormOut.proceed q v (some (pyStr ov))
        else NormOut.proceed q v none

/- Lines 254-273: the variables stage of the JSON-body branch.  A body-borne
   variables value is first rendered with str() and then parsed with
   json.loads; when no variables were resolved the empty-string sentinel is
   used. -/
def postJsonVars (ex : Externals) (pd : Json) (q : String) (variables0 : Option Json)
    (opName0 : Option String) : NormOut :=
  match variables0 with
  | some v => postJsonOp pd q (some v) opName0
  | none =>
    if pyTruthy pd then
      match pyContains "variables" pd with
      | .error e => NormOut.out (Outcome.exn e)
      | .ok false => postJsonOp pd q (some (Json.str "")) opName0
      | .ok true =>
        match pyIndex "variables" pd with
        | .error e => NormOut.out (Outcome.exn e)
        | .ok vv =>
          if pyTruthy vv then
            match ex.jsonLoads (pyStr vv) with
            | some pv => postJsonOp pd q (some pv) opName0
            | none => NormOut.out (Outcome.resp 400 (some (errBody "Variables are invalid JSON.")) [])
          else postJsonOp pd q (some (Json.str "")) opName0
    else postJsonOp pd q (some (Json.str "")) opName0

/- Lines 242-252: the query stage of the JSON-body branch.  The body's query
   field is used whenever the key is present in a truthy body (its value is
   str()-coerced, with no truthiness requirement of its own). -/
def postJson (ex : Externals) (pd : Json) (query0 : Option String)
    (variables0 : Option Json) (opName0 : Option String) : NormOut :=
  match query0 with
  | some q => postJsonVars ex pd q variables0 opName0
  | none =>
    if pyTruthy pd then
      match pyContains "query" pd with
      | .error e => NormOut.out (Outcome.exn e)
      | .ok false =>
        NormOut.out (Outcome.resp 400 (some (errBody "Must provide query string.")) [])
      | .ok true =>
        match pyIndex "query" pd with
        | .error e => NormOut.out (Outcome.exn e)
        | .ok vq => postJsonVars ex pd (pyStr vq) variables0 opName0
    else NormOut.out (Outcome.resp 400 (some (errBody "Must provide query string.")) [])

/- Lines 216-309: the content-type branch of POST normalization, entered with
   the values already resolved from URL parameters. -/
def postBranch (ex : Externals) (req : Req) (query0 : Option String)
    (variables0 : Option Json) (opName0 : Option String) : NormOut :=
  if contentTypeContains req "application/json" then
    if contentLengthZero req then
      NormOut.out (Outcome.resp 400 (some (errBody "POST body sent invalid JSON.")) [])
    else
      match ex.jsonLoads req.body with
      | some pd => postJson ex pd query0 variables0 opName0
      | none => NormOut.out (Outcome.resp 400 (some (errBody "POST body sent invalid JSON.")) [])
  else if contentTypeContains req "application/graphql" then
    match query0 with
    | some q => NormOut.proceed q variables0 opName0
    | none =>
      if req.body != "" then NormOut.proceed req.body variables0 opName0
      else NormOut.out (Outcome.resp 400 (some (errBody "Must provide query string.")) [])
  else
    match query0 with
    | some q => NormOut.proceed q variables0 opName0
    | none => NormOut.out (Outcome.resp 400 (some (errBody "Must provide query string.")) [])

/- Lines 191-309: POST normalization.  URL parameters are resolved first; an
   unparsable URL variables value returns 400 before the body is examined. -/
def postNorm (ex : Externals) (req : Req) : NormOut :=
  if hasTruthyParam req "variables" then
    match ex.jsonLoads (paramVal req "variables") with
    | some v => postBranch ex req (urlQuery req) (some v) (urlOpName req)
    | none => NormOut.out (Outcome.resp 400 (some (errBody "Variables are invalid JSON.")) [])
  else postBranch ex req (urlQuery req) none (urlOpName req)

/- The GET responder: normalize, then execute and format. -/
def on_get (ex : Externals) (req : Req) : Outcome :=
  match getNorm ex req with
  | NormOut.out o => o
  | NormOut.proceed q v o => formatResult (ex.execute q v o)

/- The POST responder: normalize, then execute and format. -/
def on_post (ex : Externals) (req : Req) : Outcome :=
  match postNorm ex req with
  | NormOut.out o => o
  | NormOut.proceed q v o => formatResult (ex.execute q v o)

/- Lines 61-64: OPTIONS sets 204 and no body. -/
def on_options (_req : Req) : Outcome :=
  Outcome.resp 204 none []

/- Lines 66-68: HEAD sets nothing; falcon's default status 200 and no body. -/
def on_head (_req : Req) : Outcome :=
  Outcome.resp 200 none []

/- Lines 337-344. -/
def on_put (_req : Req) : Outcome :=
  Outcome.resp 405 (some (errBody "GraphQL only supports GET and POST requests.")) []

/- Lines 346-353. -/
def on_patch (_req : Req) : Outcome :=
  Outcome.resp 405 (some (errBody "GraphQL only supports GET and POST requests.")) []

/- Lines 355-362. -/
def on_delete (_req : Req) : Outcome :=
  Outcome.resp 405 (some (errBody "GraphQL only supports GET and POST requests.")) []

/- resp.set_header: replaces any existing header of the same name. -/
def setHeader (n v : String) (hs : List (String × String)) : List (String × String) :=
  (n, v) :: hs.filter (fun p => p.1 != n)

/- Lines 52-54: the after-hook applied to every responder of the resource. -/
def set_graphql_allow_header (hs : List (String × String)) : List (String × String) :=
  setHeader "Allow" "GET, POST, OPTIONS" hs

/- falcon.after runs the hook only when the responder returns normally; an
   exception escapes without the header. -/
def applyAllow : Outcome → Outcome
  | Outcome.resp s b hs => Outcome.resp s b (set_graphql_allow_header hs)
  | Outcome.exn e => Outcome.exn e

inductive Method where
  | GET | POST | OPTIONS | HEAD | PUT | PATCH | DELETE
deriving Repr, DecidableEq

/- Method dispatch for the /graphql resource, with the class-level
   falcon.after hook applied around every responder. -/
def handle (ex : Externals) (m : Method) (req : Req) : Outcome :=
  applyAllow
    (match m with
     | Method.GET => on_get ex req
     | Method.POST => on_post ex req
     | Method.OPTIONS => on_options req
     | Method.HEAD => on_head req
     | Method.PUT => on_put req
     | Method.PATCH => on_patch req
     | Method.DELETE => on_delete req)

/- Helper facts about parameter lookup and truthiness. -/

theorem hasTruthyParam_ne (req : Req) (k : String) (h : hasTruthyParam req k = true) :
    paramVal req k ≠ "" := by
  unfold hasTruthyParam at h
  unfold paramVal
  cases hl : List.lookup k req.params with
  | none => rw [hl] at h; cases h
  | some v => rw [hl] at h; simpa using h

theorem urlQuery_ne (req : Req) (q : String) (h : urlQuery req = some q) : q ≠ "" := by
  unfold urlQuery at h
  split at h
  · rename_i hc
    injection h with h1
    subst h1
    exact hasTruthyParam_ne req "query" ((Bool.and_eq_true _ _).mp hc).2
  · cases h

theorem lookup_some_any (k : String) (v : Json) :
    ∀ kvs : List (String × Json), List.lookup k kvs = some v →
      kvs.any (fun p => p.1 == k) = true := by
  intro kvs
  induction kvs with
  | nil => intro h; simp [List.lookup] at h
  | cons a t ih =>
    intro h
    obtain ⟨k1, v1⟩ := a
    unfold List.lookup at h
    split at h
    · rename_i hk
      have hk1 : k = k1 := by simpa using hk
      subst hk1
      simp
    · rename_i hk
      simp [ih h]

theorem lookup_none_any (k : String) :
    ∀ kvs : List (String × Json), List.lookup k kvs = none →
      kvs.any (fun p => p.1 == k) = false := by
  intro kvs
  induction kvs with
  | nil => intro h; simp
  | cons a t ih =>
    intro h
    obtain ⟨k1, v1⟩ := a
    unfold List.lookup at h
    split at h
    · cases h
    · rename_i hk
      have hk1 : ¬ k1 = k := by
        intro he
        subst he
        simp at hk
      simp only [List.any_cons, ih h, Bool.or_false]
      simpa using hk1

theorem lookup_some_truthy (k : String) (v : Json) (kvs : List (String × Json))
    (h : List.lookup k kvs = some v) : pyTruthy (Json.obj kvs) = true := by
  cases kvs with
  | nil => simp [List.lookup] at h
  | cons a t => simp [pyTruthy]

/- Stage lemmas for POST normalization. -/

theorem postNorm_novars (ex : Externals) (req : Req)
    (h : hasTruthyParam req "variables" = false) :
    postNorm ex req = postBranch ex req (urlQuery req) none (urlOpName req) := by
  simp [postNorm, h]

theorem postNorm_vars_ok (ex : Externals) (req : Req) (j : Json)
    (h : hasTruthyParam req "variables" = true)
    (hl : ex.jsonLoads (paramVal req "variables") = some j) :
    postNorm ex req = postBranch ex req (urlQuery req) (some j) (urlOpName req) := by
  simp [postNorm, h, hl]

theorem postNorm_vars_bad (ex : Externals) (req : Req)
    (h : hasTruthyParam req "variables" = true)
    (hl : ex.jsonLoads (paramVal req "variables") = none) :
    postNorm ex req = NormOut.out (Outcome.resp 400 (some (errBody "Variables are invalid JSON.")) []) := by
  simp [postNorm, h, hl]

theorem postJsonOp_keeps (pd : Json) (q : String) (v : Option Json) (o0 : Option String)
    (nq : String) (nv : Option Json) (no : Option String)
    (h : postJsonOp pd q v o0 = NormOut.proceed nq nv no) : nq = q ∧ nv = v := by
  unfold postJsonOp at h
  repeat' split at h
  all_goals simp_all

theorem postJsonOp_keeps_op (pd : Json) (q : String) (v : Option Json) (o : String)
    (nq : String) (nv : Option Json) (no : Option String)
    (h : postJsonOp pd q v (some o) = NormOut.proceed nq nv no) : no = some o := by
  unfold postJsonOp at h
  injection h with _ _ h3
  exact h3.symm

theorem postJsonVars_keeps_q (ex : Externals) (pd : Json) (q : String) (v0 : Option Json)
    (o0 : Option String) (nq : String) (nv : Option Json) (no : Option String)
    (h : postJsonVars ex pd q v0 o0 = NormOut.proceed nq nv no) : nq = q := by
  unfold postJsonVars at h
  repeat' split at h
  all_goals first
    | exact (postJsonOp_keeps _ _ _ _ _ _ _ h).1
    | cases h

theorem postJsonVars_keeps_vars (ex : Externals) (pd : Json) (q : String) (j : Json)
    (o0 : Option String) (nq : String) (nv : Option Json) (no : Option String)
    (h : postJsonVars ex pd q (some j) o0 = NormOut.proceed nq nv no) : nv = some j := by
  have he : postJsonVars ex pd q (some j) o0 = postJsonOp pd q (some j) o0 := rfl
  rw [he] at h
  exact (postJsonOp_keeps _ _ _ _ _ _ _ h).2

theorem postJsonVars_keeps_op (ex : Externals) (pd : Json) (q : String) (v0 : Option Json)
    (o : String) (nq : String) (nv : Option Json) (no : Option String)
    (h : postJsonVars ex pd q v0 (some o) = NormOut.proceed nq nv no) : no = some o := by
  unfold postJsonVars at h
  repeat' split at h
  all_goals first
    | exact postJsonOp_keeps_op _ _ _ _ _ _ _ h
    | cases h

theorem postJson_some_q (ex : Externals) (pd : Json) (q : String) (v0 : Option Json)
    (o0 : Option String) : postJson ex pd (some q) v0 o0 = postJsonVars ex pd q v0 o0 := rfl

theorem postJson_keeps_vars (ex : Externals) (pd : Json) (q0 : Option String) (j : Json)
    (o0 : Option String) (nq : String) (nv : Option Json) (no : Option String)
    (h : postJson ex pd q0 (some j) o0 = NormOut.proceed nq nv no) : nv = some j := by
  unfold postJson at h
  repeat' split at h
  all_goals first
    | exact postJsonVars_keeps_vars _ _ _ _ _ _ _ _ h
    | cases h

theorem postJson_keeps_op (ex : Externals) (pd : Json) (q0 : Option String) (v0 : Option Json)
    (o : String) (nq : String) (nv : Option Json) (no : Option String)
    (h : postJson ex pd q0 v0 (some o) = NormOut.proceed nq nv no) : no = some o := by
  unfold postJson at h
  repeat' split at h
  all_goals first
    | exact postJsonVars_keeps_op _ _ _ _ _ _ _ _ h
    | cases h

/- Equation lemmas for the content-type branches of postBranch. -/

theorem postBranch_json_ok (ex : Externals) (req : Req) (q0 : Option String)
    (v0 : Option Json) (o0 : Option String) (pd : Json)
    (hct : contentTypeContains req "application/json" = true)
    (hlen : contentLengthZero req = false)
    (hload : ex.jsonLoads req.body = some pd) :
    postBranch ex req q0 v0 o0 = postJson ex pd q0 v0 o0 := by
  simp [postBranch, hct, hlen, hload]

theorem postBranch_json_bad (ex : Externals) (req : Req) (q0 : Option String)
    (v0 : Option Json) (o0 : Option String)
    (hct : contentTypeContains req "application/json" = true)
    (hbad : contentLengthZero req = true ∨ ex.jsonLoads req.body = none) :
    postBranch ex req q0 v0 o0 =
      NormOut.out (Outcome.resp 400 (some (errBody "POST body sent invalid JSON.")) []) := by
  unfold postBranch
  rw [if_pos hct]
  cases hlen : contentLengthZero req with
  | true => simp
  | false =>
    rcases hbad with hb | hb
    · rw [hlen] at hb; cases hb
    · simp [hb]

theorem postBranch_not_json_someq (ex : Externals) (req : Req) (q : String)
    (v0 : Option Json) (o0 : Option String)
    (hj : contentTypeContains req "application/json" = false) :
    postBranch ex req (some q) v0 o0 = NormOut.proceed q v0 o0 := by
  simp [postBranch, hj]

theorem postBranch_graphql_noq (ex : Externals) (req : Req)
    (v0 : Option Json) (o0 : Option String)
    (hj : contentTypeContains req "application/json" = false)
    (hg : contentTypeContains req "application/graphql" = true) :
    postBranch ex req none v0 o0 =
      (if req.body != "" then NormOut.proceed req.body v0 o0
       else NormOut.out (Outcome.resp 400 (some (errBody "Must provide query string.")) [])) := by
  simp [postBranch, hj, hg]

theorem postBranch_other_noq (ex : Externals) (req : Req)
    (v0 : Option Json) (o0 : Option String)
    (hj : contentTypeContains req "application/json" = false)
    (hg : contentTypeContains req "application/graphql" = false) :
    postBranch ex req none v0 o0 =
      NormOut.out (Outcome.resp 400 (some (errBody "Must provide query string.")) []) := by
  simp [postBranch, hj, hg]

/- Preservation of URL-resolved fields through postBranch. -/

theorem postBranch_keeps_q (ex : Externals) (req : Req) (q : String) (v0 : Option Json)
    (o0 : Option String) (nq : String) (nv : Option Json) (no : Option String)
    (h : postBranch ex req (some q) v0 o0 = NormOut.proceed nq nv no) : nq = q := by
  cases hj : contentTypeContains req "application/json" with
  | true =>
    cases hlen : contentLengthZero req with
    | true => rw [postBranch_json_bad ex req _ v0 o0 hj (Or.inl hlen)] at h; cases h
    | false =>
      cases hload : ex.jsonLoads req.body with
      | none => rw [postBranch_json_bad ex req _ v0 o0 hj (Or.inr hload)] at h; cases h
      | some pd =>
        rw [postBranch_json_ok ex req _ v0 o0 pd hj hlen hload, postJson_some_q] at h
        exact postJsonVars_keeps_q _ _ _ _ _ _ _ _ h
  | false =>
    rw [postBranch_not_json_someq ex req q v0 o0 hj] at h
    injection h with h1 h2 h3
    exact h1.symm

theorem postBranch_keeps_vars (ex : Externals) (req : Req) (q0 : Option String) (j : Json)
    (o0 : Option String) (nq : String) (nv : Option Json) (no : Option String)
    (h : postBranch ex req q0 (some j) o0 = NormOut.proceed nq nv no) : nv = some j := by
  cases hj : contentTypeContains req "application/json" with
  | true =>
    cases hlen : contentLengthZero req with
    | true => rw [postBranch_json_bad ex req q0 _ o0 hj (Or.inl hlen)] at h; cases h
    | false =>
      cases hload : ex.jsonLoads req.body with
      | none => rw [postBranch_json_bad ex req q0 _ o0 hj (Or.inr hload)] at h; cases h
      | some pd =>
        rw [postBranch_json_ok ex req q0 _ o0 pd hj hlen hload] at h
        exact postJson_keeps_vars _ _ _ _ _ _ _ _ h
  | false =>
    cases q0 with
    | some q =>
      rw [postBranch_not_json_someq ex req q _ o0 hj] at h
      injection h with h1 h2 h3
      exact h2.symm
    | none =>
      cases hg : contentTypeContains req "application/graphql" with
      | true =>
        rw [postBranch_graphql_noq ex req _ o0 hj hg] at h
        split at h
        · injection h with h1 h2 h3; exact h2.symm
        · cases h
      | false =>
        rw [postBranch_other_noq ex req _ o0 hj hg] at h
        cases h

theorem postBranch_keeps_op (ex : Externals) (req : Req) (q0 : Option String) (v0 : Option Json)
    (o : String) (nq : String) (nv : Option Json) (no : Option String)
    (h : postBranch ex req q0 v0 (some o) = NormOut.proceed nq nv no) : no = some o := by
  cases hj : contentTypeContains req "application/json" with
  | true =>
    cases hlen : contentLengthZero req with
    | true => rw [postBranch_json_bad ex req q0 v0 _ hj (Or.inl hlen)] at h; cases h
    | false =>
      cases hload : ex.jsonLoads req.body with
      | none => rw [postBranch_json_bad ex req q0 v0 _ hj (Or.inr hload)] at h; cases h
      | some pd =>
        rw [postBranch_json_ok ex req q0 v0 _ pd hj hlen hload] at h
        exact postJson_keeps_op _ _ _ _ _ _ _ _ h
  | false =>
    cases q0 with
    | some q =>
      rw [postBranch_not_json_someq ex req q v0 _ hj] at h
      injection h with h1 h2 h3
      exact h3.symm
    | none =>
      cases hg : contentTypeContains req "application/graphql" with
      | true =>
        rw [postBranch_graphql_noq ex req v0 _ hj hg] at h
        split at h
        · injection h with h1 h2 h3; exact h3.symm
        · cases h
      | false =>
        rw [postBranch_other_noq ex req v0 _ hj hg] at h
        cases h

/- The origin of the query in a proceed outcome of the JSON-body branch:
   either the already-resolved URL value, or the str()-coerced query field of
   the decoded body. -/
theorem postJson_q_source (ex : Externals) (pd : Json) (q0 : Option String)
    (v0 : Option Json) (o0 : Option String) (nq : String) (nv : Option Json) (no : Option String)
    (h : postJson ex pd q0 v0 o0 = NormOut.proceed nq nv no) :
    q0 = some nq ∨ (∃ vq, pyIndex "query" pd = Except.ok vq ∧ pyStr vq = nq) := by
  cases q0 with
  | some q =>
    rw [postJson_some_q] at h
    left
    exact congrArg some (postJsonVars_keeps_q _ _ _ _ _ _ _ _ h).symm
  | none =>
    simp only [postJson] at h
    right
    split at h
    · split at h
      · cases h
      · cases h
      · split at h
        · cases h
        · rename_i vq hvq
          exact ⟨vq, hvq, (postJsonVars_keeps_q _ _ _ _ _ _ _ _ h).symm⟩
    · cases h

/- The origin of the query in a POST proceed outcome: the URL value, the
   str()-coerced query field of a JSON body, or the whole raw-document body. -/
theorem postBranch_q_source (ex : Externals) (req : Req) (q0 : Option String)
    (v0 : Option Json) (o0 : Option String) (nq : String) (nv : Option Json) (no : Option String)
    (h : postBranch ex req q0 v0 o0 = NormOut.proceed nq nv no) :
    q0 = some nq ∨
    (contentTypeContains req "application/json" = true ∧
      ∃ pd vq, ex.jsonLoads req.body = some pd ∧ pyIndex "query" pd = Except.ok vq ∧
        pyStr vq = nq) ∨
    (q0 = none ∧ nq = req.body ∧ req.body ≠ "") := by
  cases hj : contentTypeContains req "application/json" with
  | true =>
    cases hlen : contentLengthZero req with
    | true => rw [postBranch_json_bad ex req q0 v0 o0 hj (Or.inl hlen)] at h; cases h
    | false =>
      cases hload : ex.jsonLoads req.body with
      | none => rw [postBranch_json_bad ex req q0 v0 o0 hj (Or.inr hload)] at h; cases h
      | some pd =>
        rw [postBranch_json_ok ex req q0 v0 o0 pd hj hlen hload] at h
        rcases postJson_q_source _ _ _ _ _ _ _ _ h with hq | ⟨vq, hvq, hs⟩
        · left; exact hq
        · right; left; exact ⟨rfl, pd, vq, rfl, hvq, hs⟩
  | false =>
    cases q0 with
    | some q =>
      rw [postBranch_not_json_someq ex req q v0 o0 hj] at h
      injection h with h1 h2 h3
      left
      rw [h1]
    | none =>
      cases hg : contentTypeContains req "application/graphql" with
      | true =>
        rw [postBranch_graphql_noq ex req v0 o0 hj hg] at h
        split at h
        · rename_i hbody
          injection h with h1 h2 h3
          right; right
          exact ⟨rfl, h1.symm, by simpa using hbody⟩
        · cases h
      | false =>
        rw [postBranch_other_noq ex req v0 o0 hj hg] at h
        cases h

/- Equation lemmas for GET normalization and the responder wrappers. -/

theorem getNorm_noquery (ex : Externals) (req : Req)
    (h : (!req.params.isEmpty && hasTruthyParam req "query") = false) :
    getNorm ex req = NormOut.out (Outcome.resp 400 (some (errBody "Must provide query string.")) []) := by
  simp [getNorm, h]

theorem getNorm_vars_bad (ex : Externals) (req : Req)
    (hq : (!req.params.isEmpty && hasTruthyParam req "query") = true)
    (hv : hasTruthyParam req "variables" = true)
    (hl : ex.jsonLoads (paramVal req "variables") = none) :
    getNorm ex req = NormOut.out (Outcome.resp 400 (some (errBody "Variables are invalid JSON.")) []) := by
  simp [getNorm, hq, hv, hl]

theorem getNorm_vars_ok (ex : Externals) (req : Req) (j : Json)
    (hq : (!req.params.isEmpty && hasTruthyParam req "query") = true)
    (hv : hasTruthyParam req "variables" = true)
    (hl : ex.jsonLoads (paramVal req "variables") = some j) :
    getNorm ex req = NormOut.proceed (paramVal req "query") (some j) (urlOpName req) := by
  simp [getNorm, hq, hv, hl]

theorem getNorm_novars (ex : Externals) (req : Req)
    (hq : (!req.params.isEmpty && hasTruthyParam req "query") = true)
    (hv : hasTruthyParam req "variables" = false) :
    getNorm ex req = NormOut.proceed (paramVal req "query") (some (Json.str "")) (urlOpName req) := by
  simp [getNorm, hq, hv]

theorem on_get_out (ex : Externals) (req : Req) (o : Outcome)
    (h : getNorm ex req = NormOut.out o) : on_get ex req = o := by
  simp [on_get, h]

theorem on_get_proceed (ex : Externals) (req : Req) (q : String) (v : Option Json)
    (o : Option String) (h : getNorm ex req = NormOut.proceed q v o) :
    on_get ex req = formatResult (ex.execute q v o) := by
  simp [on_get, h]

theorem on_post_out (ex : Externals) (req : Req) (o : Outcome)
    (h : postNorm ex req = NormOut.out o) : on_post ex req = o := by
  simp [on_post, h]

theorem on_post_proceed (ex : Externals) (req : Req) (q : String) (v : Option Json)
    (o : Option String) (h : postNorm ex req = NormOut.proceed q v o) :
    on_post ex req = formatResult (ex.execute q v o) := by
  simp [on_post, h]

theorem getNorm_proceed_inv (ex : Externals) (req : Req) (q : String) (v : Option Json)
    (o : Option String) (h : getNorm ex req = NormOut.proceed q v o) :
    q = paramVal req "query" ∧ (!req.params.isEmpty && hasTruthyParam req "query") = true := by
  unfold getNorm at h
  split at h
  · rename_i hc
    refine ⟨?_, hc⟩
    split at h
    · split at h
      · injection h with h1 h2 h3; exact h1.symm
      · cases h
    · injection h with h1 h2 h3; exact h1.symm
  · cases h

/- CLAIM THEOREMS -/

/-- C1: On POST, each of the three fields resolved from a non-empty URL query
parameter takes precedence over any body-supplied value, independently per
field: whenever normalization reaches execution, the query equals the URL
query when one was given, the variables equal the parsed URL variables when
given, and the operation name equals the URL operation name when given; the
body value for such a field is never used. -/
theorem c1_url_precedence (ex : Externals) (req : Req)
    (nq : String) (nv : Option Json) (no : Option String)
    (h : postNorm ex req = NormOut.proceed nq nv no) :
    (∀ q, urlQuery req = some q → nq = q) ∧
    (hasTruthyParam req "variables" = true → nv = ex.jsonLoads (paramVal req "variables")) ∧
    (∀ o, urlOpName req = some o → no = some o) := by
  refine ⟨?_, ?_, ?_⟩
  · intro q hq
    cases hv : hasTruthyParam req "variables" with
    | false =>
      rw [postNorm_novars ex req hv, hq] at h
      exact postBranch_keeps_q _ _ _ _ _ _ _ _ h
    | true =>
      cases hl : ex.jsonLoads (paramVal req "variables") with
      | none => rw [postNorm_vars_bad ex req hv hl] at h; cases h
      | some j =>
        rw [postNorm_vars_ok ex req j hv hl, hq] at h
        exact postBranch_keeps_q _ _ _ _ _ _ _ _ h
  · intro hv
    cases hl : ex.jsonLoads (paramVal req "variables") with
    | none => rw [postNorm_vars_bad ex req hv hl] at h; cases h
    | some j =>
      rw [postNorm_vars_ok ex req j hv hl] at h
      exact postBranch_keeps_vars _ _ _ _ _ _ _ _ h
  · intro o ho
    cases hv : hasTruthyParam req "variables" with
    | false =>
      rw [postNorm_novars ex req hv, ho] at h
      exact postBranch_keeps_op _ _ _ _ _ _ _ _ h
    | true =>
      cases hl : ex.jsonLoads (paramVal req "variables") with
      | none => rw [postNorm_vars_bad ex req hv hl] at h; cases h
      | some j =>
        rw [postNorm_vars_ok ex req j hv hl, ho] at h
        exact postBranch_keeps_op _ _ _ _ _ _ _ _ h

def reqC1 : Req :=
  Req.mk [("query", "\x7bq1\x7d")] (some "application/json") (some 18)
    "\x7b\x22query\x22:\x22\x7bq2\x7d\x22\x7d"

def exC1 : Externals :=
  Externals.mk
    (fun s => if s == "\x7b\x22query\x22:\x22\x7bq2\x7d\x22\x7d"
              then some (Json.obj [("query", Json.str "\x7bq2\x7d")]) else none)
    (fun q _ _ => ExecResult.mk (some (Json.obj [("echo", Json.str q)])) [])

/-- Witness for C1: URL query q1 together with a JSON body supplying query q2
normalizes to executing q1. -/
theorem c1_witness :
    urlQuery reqC1 = some "\x7bq1\x7d" ∧
    postNorm exC1 reqC1 = NormOut.proceed "\x7bq1\x7d" (some (Json.str "")) none ∧
    "\x7bq1\x7d" = "\x7bq1\x7d" := by
  refine ⟨rfl, rfl, ?_⟩
  exact (c1_url_precedence exC1 reqC1 _ _ _ rfl).1 "\x7bq1\x7d" rfl

/-- C4: A GET request whose query URL parameter is absent or empty is answered
with status 400 and message Must provide query string., the request body is
never consulted (the outcome is unchanged under any body), and the engine is
not invoked. -/
theorem c4_get_missing_query (ex : Externals) (req : Req)
    (h : (!req.params.isEmpty && hasTruthyParam req "query") = false) :
    on_get ex req = Outcome.resp 400 (some (errBody "Must provide query string.")) [] ∧
    (∀ q v o, getNorm ex req ≠ NormOut.proceed q v o) ∧
    (∀ b, on_get ex (Req.mk req.params req.contentType req.contentLength b) = on_get ex req) := by
  refine ⟨on_get_out ex req _ (getNorm_noquery ex req h), ?_, ?_⟩
  · intro q v o hc
    rw [getNorm_noquery ex req h] at hc
    cases hc
  · intro b
    rfl

def exC4 : Externals := Externals.mk (fun _ => none) (fun _ _ _ => ExecResult.mk none [])

def reqC4 : Req := Req.mk [("variables", "x")] none none "ignored body"

/-- Witness for C4 at a concrete GET request carrying no query parameter. -/
theorem c4_witness :
    (!reqC4.params.isEmpty && hasTruthyParam reqC4 "query") = false ∧
    on_get exC4 reqC4 = Outcome.resp 400 (some (errBody "Must provide query string.")) [] ∧
    on_get exC4 (Req.mk reqC4.params reqC4.contentType reqC4.contentLength "other") =
      on_get exC4 reqC4 :=
  ⟨rfl, (c4_get_missing_query exC4 reqC4 rfl).1,
    (c4_get_missing_query exC4 reqC4 rfl).2.2 "other"⟩

theorem applyAllow_resp (o : Outcome) (s : Nat) (b : Option String)
    (hs : List (String × String)) (h : applyAllow o = Outcome.resp s b hs) :
    List.lookup "Allow" hs = some "GET, POST, OPTIONS" := by
  cases o with
  | resp s0 b0 hs0 =>
    injection h with h1 h2 h3
    rw [← h3]
    rfl
  | exn e => cases h

/-- C9: OPTIONS requests are answered 204; PUT, PATCH and DELETE are answered
405 with the fixed GraphQL only supports GET and POST requests. body,
independently of the request; and every response of the resource, for every
method and outcome, carries the header Allow: GET, POST, OPTIONS. -/
theorem c9_method_dispatch (ex : Externals) (req : Req) :
    handle ex Method.OPTIONS req = Outcome.resp 204 none [("Allow", "GET, POST, OPTIONS")] ∧
    handle ex Method.PUT req =
      Outcome.resp 405 (some (errBody "GraphQL only supports GET and POST requests."))
        [("Allow", "GET, POST, OPTIONS")] ∧
    handle ex Method.PATCH req =
      Outcome.resp 405 (some (errBody "GraphQL only supports GET and POST requests."))
        [("Allow", "GET, POST, OPTIONS")] ∧
    handle ex Method.DELETE req =
      Outcome.resp 405 (some (errBody "GraphQL only supports GET and POST requests."))
        [("Allow", "GET, POST, OPTIONS")] ∧
    (∀ m s b hs, handle ex m req = Outcome.resp s b hs →
      List.lookup "Allow" hs = some "GET, POST, OPTIONS") := by
  refine ⟨rfl, rfl, rfl, rfl, ?_⟩
  intro m s b hs h
  cases m
  all_goals exact applyAllow_resp _ _ _ _ h

def exC9 : Externals := Externals.mk (fun _ => none) (fun _ _ _ => ExecResult.mk none [])

def reqC9 : Req := Req.mk [] none none ""

/-- Witness for C9: a concrete GET response carries the Allow header. -/
theorem c9_witness :
    handle exC9 Method.GET reqC9 =
      Outcome.resp 400 (some (errBody "Must provide query string."))
        [("Allow", "GET, POST, OPTIONS")] ∧
    List.lookup "Allow" [("Allow", "GET, POST, OPTIONS")] = some "GET, POST, OPTIONS" :=
  ⟨rfl, (c9_method_dispatch exC9 reqC9).2.2.2.2 Method.GET 400 _ _ rfl⟩

theorem postBranch_not_json_op_vars (ex : Externals) (req : Req) (q0 : Option String)
    (v0 : Option Json) (o0 : Option String) (nq : String) (nv : Option Json) (no : Option String)
    (hj : contentTypeContains req "application/json" = false)
    (h : postBranch ex req q0 v0 o0 = NormOut.proceed nq nv no) : nv = v0 ∧ no = o0 := by
  cases q0 with
  | some q =>
    rw [postBranch_not_json_someq ex req q v0 o0 hj] at h
    injection h with h1 h2 h3
    exact ⟨h2.symm, h3.symm⟩
  | none =>
    cases hg : contentTypeContains req "application/graphql" with
    | true =>
      rw [postBranch_graphql_noq ex req v0 o0 hj hg] at h
      split at h
      · injection h with h1 h2 h3; exact ⟨h2.symm, h3.symm⟩
      · cases h
    | false =>
      rw [postBranch_other_noq ex req v0 o0 hj hg] at h
      cases h

def exC2 : Externals :=
  Externals.mk (fun _ => none)
    (fun _ _ _ => ExecResult.mk (some (Json.obj [])) ["boom"])

def reqC2 : Req := Req.mk [("query", "\x7bhello\x7d")] none none ""

/-- C2 as stated fails: at this concrete request the engine returns a result
whose data field is present (the empty object, which is falsy in Python)
alongside one error, yet the response is status 400 with the errors envelope
rather than status 200 with the data envelope — the source tests truthiness
of result.data, not presence. -/
theorem c2_counterexample :
    (ExecResult.mk (some (Json.obj [])) ["boom"]).data = some (Json.obj []) ∧
    handle exC2 Method.GET reqC2 =
      Outcome.resp 400 (some (errListBody ["boom"])) [("Allow", "GET, POST, OPTIONS")] ∧
    (400 : Nat) ≠ 200 :=
  ⟨rfl, rfl, by decide⟩

/-- C2 (amended): for every ExecutionResult, if data is present and truthy
(for instance a non-empty object) the response is status 200 with body exactly
the compact serialization of the data envelope, even if errors are also
present; if data is absent or falsy and errors is non-empty, the response is
status 400 with message-only error descriptors in their original order. -/
theorem c2_amended_format (r : ExecResult) :
    (∀ d, r.data = some d → pyTruthy d = true →
      formatResult r = Outcome.resp 200 (some (Json.dumps (Json.obj [("data", d)]))) []) ∧
    (dataTruthy r.data = false → r.errors ≠ [] →
      formatResult r = Outcome.resp 400 (some (errListBody r.errors)) []) := by
  constructor
  · intro d hd ht
    simp [formatResult, hd, ht]
  · intro hf he
    cases hd : r.data with
    | none => simp [formatResult, hd, he]
    | some d =>
      rw [hd] at hf
      simp only [dataTruthy] at hf
      simp [formatResult, hd, hf, he]

/-- Witness for the amended C2: a truthy data result yields exactly the
round-trip body, and a data-free errors result yields the 400 envelope. -/
theorem c2_witness :
    formatResult (ExecResult.mk (some (Json.obj [("hello", Json.str "Hello world!")])) []) =
      Outcome.resp 200 (some "\x7b\x22data\x22:\x7b\x22hello\x22:\x22Hello world!\x22\x7d\x7d") [] ∧
    formatResult (ExecResult.mk none ["e1", "e2"]) =
      Outcome.resp 400 (some (errListBody ["e1", "e2"])) [] := by
  constructor
  · rw [(c2_amended_format (ExecResult.mk (some (Json.obj [("hello", Json.str "Hello world!")])) [])).1
        (Json.obj [("hello", Json.str "Hello world!")]) rfl rfl]
    rfl
  · exact (c2_amended_format (ExecResult.mk none ["e1", "e2"])).2 rfl (by decide)

/-- C3: whenever normalization examines a present, non-empty variables value
that fails to parse as JSON — from the URL on a GET that carries a query
parameter, from the URL on POST (checked unconditionally before the body), or
from the JSON body's variables field on POST — the response is status 400
with message Variables are invalid JSON.; a failing URL value is never
replaced by a body value. -/
theorem c3_invalid_variables (ex : Externals) (req : Req) :
    ((!req.params.isEmpty && hasTruthyParam req "query") = true →
      hasTruthyParam req "variables" = true →
      ex.jsonLoads (paramVal req "variables") = none →
      on_get ex req = Outcome.resp 400 (some (errBody "Variables are invalid JSON.")) []) ∧
    (hasTruthyParam req "variables" = true →
      ex.jsonLoads (paramVal req "variables") = none →
      on_post ex req = Outcome.resp 400 (some (errBody "Variables are invalid JSON.")) []) ∧
    (∀ kvs vv,
      contentTypeContains req "application/json" = true →
      hasTruthyParam req "variables" = false →
      (!req.params.isEmpty && hasTruthyParam req "query") = true →
      contentLengthZero req = false →
      ex.jsonLoads req.body = some (Json.obj kvs) →
      List.lookup "variables" kvs = some vv →
      pyTruthy vv = true →
      ex.jsonLoads (pyStr vv) = none →
      on_post ex req = Outcome.resp 400 (some (errBody "Variables are invalid JSON.")) []) := by
  refine ⟨?_, ?_, ?_⟩
  · intro hq hv hl
    exact on_get_out ex req _ (getNorm_vars_bad ex req hq hv hl)
  · intro hv hl
    exact on_post_out ex req _ (postNorm_vars_bad ex req hv hl)
  · intro kvs vv hct hv hq hlen hload hlk htr hbad
    apply on_post_out ex req
    rw [postNorm_novars ex req hv,
        postBranch_json_ok ex req _ _ _ _ hct hlen hload]
    have huq : urlQuery req = some (paramVal req "query") := by simp [urlQuery, hq]
    rw [huq, postJson_some_q]
    have h1 : pyTruthy (Json.obj kvs) = true := lookup_some_truthy _ vv _ hlk
    have h2 : pyContains "variables" (Json.obj kvs) = Except.ok true := by
      simp [pyContains, lookup_some_any "variables" vv kvs hlk]
    have h3 : pyIndex "variables" (Json.obj kvs) = Except.ok vv := by
      simp [pyIndex, hlk]
    simp [postJsonVars, h1, h2, h3, htr, hbad]

def exC3 : Externals := Externals.mk (fun _ => none) (fun _ _ _ => ExecResult.mk none [])

def reqC3g : Req := Req.mk [("query", "\x7bhello\x7d"), ("variables", "oops")] none none ""

def reqC3p : Req := Req.mk [("variables", "oops")] (some "application/json") (some 5) "body"

def exC3b : Externals :=
  Externals.mk
    (fun s => if s == "BODY" then some (Json.obj [("variables", Json.str "oops")]) else none)
    (fun _ _ _ => ExecResult.mk none [])

def reqC3b : Req := Req.mk [("query", "\x7bhello\x7d")] (some "application/json") (some 4) "BODY"

/-- Witness for C3 at three concrete requests: invalid URL variables on GET,
invalid URL variables on POST, and invalid body variables on POST. -/
theorem c3_witness :
    on_get exC3 reqC3g = Outcome.resp 400 (some (errBody "Variables are invalid JSON.")) [] ∧
    on_post exC3 reqC3p = Outcome.resp 400 (some (errBody "Variables are invalid JSON.")) [] ∧
    on_post exC3b reqC3b = Outcome.resp 400 (some (errBody "Variables are invalid JSON.")) [] :=
  ⟨(c3_invalid_variables exC3 reqC3g).1 rfl rfl rfl,
   (c3_invalid_variables exC3 reqC3p).2.1 rfl rfl,
   (c3_invalid_variables exC3b reqC3b).2.2 [("variables", Json.str "oops")] (Json.str "oops")
     rfl rfl rfl rfl rfl rfl rfl rfl⟩

def exC5 : Externals := Externals.mk (fun _ => none) (fun _ _ _ => ExecResult.mk none [])

def reqC5 : Req := Req.mk [("variables", "oops")] (some "application/json") (some 0) ""

/-- C5 as stated fails: a JSON-content POST with an empty body (content length
0) but an unparsable URL variables parameter is answered 400 Variables are
invalid JSON., not 400 POST body sent invalid JSON. — the URL variables check
runs before the body check. -/
theorem c5_counterexample :
    contentTypeContains reqC5 "application/json" = true ∧
    contentLengthZero reqC5 = true ∧
    handle exC5 Method.POST reqC5 =
      Outcome.resp 400 (some (errBody "Variables are invalid JSON."))
        [("Allow", "GET, POST, OPTIONS")] ∧
    errBody "Variables are invalid JSON." ≠ errBody "POST body sent invalid JSON." :=
  ⟨rfl, rfl, rfl, by decide⟩

/-- C5 (amended): for every POST with a JSON content type whose URL variables
parameter is absent, empty, or parses as JSON, an empty or absent body
(content length 0 or none) as well as a body that is not syntactically valid
JSON is answered 400 POST body sent invalid JSON., and the engine is not
invoked. -/
theorem c5_amended_json_body (ex : Externals) (req : Req)
    (hct : contentTypeContains req "application/json" = true)
    (hv : hasTruthyParam req "variables" = false ∨
      ∃ j, ex.jsonLoads (paramVal req "variables") = some j)
    (hbad : contentLengthZero req = true ∨ ex.jsonLoads req.body = none) :
    on_post ex req = Outcome.resp 400 (some (errBody "POST body sent invalid JSON.")) [] ∧
    (∀ q v o, postNorm ex req ≠ NormOut.proceed q v o) := by
  have hnorm : postNorm ex req =
      NormOut.out (Outcome.resp 400 (some (errBody "POST body sent invalid JSON.")) []) := by
    rcases hv with hv | ⟨j, hj⟩
    · rw [postNorm_novars ex req hv]
      exact postBranch_json_bad ex req _ _ _ hct hbad
    · cases hvt : hasTruthyParam req "variables" with
      | true =>
        rw [postNorm_vars_ok ex req j hvt hj]
        exact postBranch_json_bad ex req _ _ _ hct hbad
      | false =>
        rw [postNorm_novars ex req hvt]
        exact postBranch_json_bad ex req _ _ _ hct hbad
  refine ⟨on_post_out ex req _ hnorm, ?_⟩
  intro q v o hc
  rw [hnorm] at hc
  cases hc

def exC5w : Externals := Externals.mk (fun _ => none) (fun _ _ _ => ExecResult.mk none [])

def reqC5w : Req := Req.mk [] (some "application/json") (some 0) ""

/-- Witness for the amended C5 at a concrete empty-body JSON POST. -/
theorem c5_witness :
    contentTypeContains reqC5w "application/json" = true ∧
    on_post exC5w reqC5w = Outcome.resp 400 (some (errBody "POST body sent invalid JSON.")) [] :=
  ⟨rfl, (c5_amended_json_body exC5w reqC5w rfl (Or.inl rfl) (Or.inl rfl)).1⟩

/-- C6: On a POST whose content type indicates application/graphql (and not
application/json) with no URL parameters, a non-empty body becomes the whole
executed query with variables and operation name absent, an empty body is
answered 400 Must provide query string., and in this branch variables and
operationName always come from the URL parameters alone, never from the
body. -/
theorem c6_graphql_body (ex : Externals) (req : Req)
    (hj : contentTypeContains req "application/json" = false)
    (hg : contentTypeContains req "application/graphql" = true) :
    (req.params = [] → req.body ≠ "" →
      postNorm ex req = NormOut.proceed req.body none none ∧
      on_post ex req = formatResult (ex.execute req.body none none)) ∧
    (req.params = [] → req.body = "" →
      on_post ex req = Outcome.resp 400 (some (errBody "Must provide query string.")) []) ∧
    (∀ nq nv no, postNorm ex req = NormOut.proceed nq nv no →
      no = urlOpName req ∧
      (hasTruthyParam req "variables" = false → nv = none) ∧
      (hasTruthyParam req "variables" = true →
        nv = ex.jsonLoads (paramVal req "variables"))) := by
  refine ⟨?_, ?_, ?_⟩
  · intro hp hb
    have hv : hasTruthyParam req "variables" = false := by
      simp [hasTruthyParam, hp, List.lookup]
    have huq : urlQuery req = none := by simp [urlQuery, hp]
    have huo : urlOpName req = none := by
      simp [urlOpName, hasTruthyParam, hp, List.lookup]
    have hnorm : postNorm ex req = NormOut.proceed req.body none none := by
      rw [postNorm_novars ex req hv, huq, huo,
          postBranch_graphql_noq ex req none none hj hg]
      simp [hb]
    exact ⟨hnorm, on_post_proceed ex req _ _ _ hnorm⟩
  · intro hp hb
    have hv : hasTruthyParam req "variables" = false := by
      simp [hasTruthyParam, hp, List.lookup]
    have huq : urlQuery req = none := by simp [urlQuery, hp]
    have huo : urlOpName req = none := by
      simp [urlOpName, hasTruthyParam, hp, List.lookup]
    apply on_post_out ex req
    rw [postNorm_novars ex req hv, huq, huo,
        postBranch_graphql_noq ex req none none hj hg]
    simp [hb]
  · intro nq nv no h
    cases hv : hasTruthyParam req "variables" with
    | false =>
      rw [postNorm_novars ex req hv] at h
      have hkeep := postBranch_not_json_op_vars ex req _ _ _ _ _ _ hj h
      exact ⟨hkeep.2, fun _ => hkeep.1, fun hc => Bool.noConfusion hc⟩
    | true =>
      cases hl : ex.jsonLoads (paramVal req "variables") with
      | none => rw [postNorm_vars_bad ex req hv hl] at h; cases h
      | some j =>
        rw [postNorm_vars_ok ex req j hv hl] at h
        have hkeep := postBranch_not_json_op_vars ex req _ _ _ _ _ _ hj h
        exact ⟨hkeep.2, fun hc => Bool.noConfusion hc, fun _ => hkeep.1⟩

def exC6 : Externals :=
  Externals.mk (fun _ => none)
    (fun q _ _ => ExecResult.mk (some (Json.obj [("ok", Json.str q)])) [])

def reqC6 : Req := Req.mk [] (some "application/graphql") (some 7) "\x7bhello\x7d"

/-- Witness for C6: raw-document POST with body as the query, and the empty
raw-document POST rejected. -/
theorem c6_witness :
    postNorm exC6 reqC6 = NormOut.proceed "\x7bhello\x7d" none none ∧
    on_post exC6 reqC6 = formatResult (exC6.execute "\x7bhello\x7d" none none) ∧
    on_post exC6 (Req.mk [] (some "application/graphql") (some 0) "") =
      Outcome.resp 400 (some (errBody "Must provide query string.")) [] := by
  refine ⟨?_, ?_, ?_⟩
  · exact ((c6_graphql_body exC6 reqC6 rfl rfl).1 rfl (by decide)).1
  · exact ((c6_graphql_body exC6 reqC6 rfl rfl).1 rfl (by decide)).2
  · exact (c6_graphql_body exC6 (Req.mk [] (some "application/graphql") (some 0) "") rfl rfl).2.1
      rfl rfl

def exC7 : Externals := Externals.mk (fun _ => none) (fun _ _ _ => ExecResult.mk none [])

def reqC7 : Req := Req.mk [("query", "\x7bhello\x7d")] none none ""

/-- C7 as stated fails: at this request the engine returns a result with
neither data nor errors, and the resource does not surface an internal-error
response of its own — the responder ends in a bare raise, an unhandled
RuntimeError escaping the handler, so no 500-style response is produced by
this code. -/
theorem c7_counterexample :
    handle exC7 Method.GET reqC7 = Outcome.exn "RuntimeError" ∧
    Outcome.exn "RuntimeError" ≠ Outcome.resp 500 none [] :=
  ⟨rfl, by decide⟩

/-- C7 (amended): for every request reaching execution whose result carries
no data and no errors, the responder terminates in a bare raise — an unhandled
RuntimeError propagating out of the handler, an outcome distinct from every
normal response — rather than returning an internal-error response itself;
the case is never silently ignored. -/
theorem c7_amended_raise (ex : Externals) (req : Req) :
    (∀ q v o, getNorm ex req = NormOut.proceed q v o →
      (ex.execute q v o).data = none → (ex.execute q v o).errors = [] →
      handle ex Method.GET req = Outcome.exn "RuntimeError") ∧
    (∀ q v o, postNorm ex req = NormOut.proceed q v o →
      (ex.execute q v o).data = none → (ex.execute q v o).errors = [] →
      handle ex Method.POST req = Outcome.exn "RuntimeError") := by
  constructor
  · intro q v o h hd he
    have hget : on_get ex req = formatResult (ex.execute q v o) :=
      on_get_proceed ex req q v o h
    show applyAllow (on_get ex req) = Outcome.exn "RuntimeError"
    rw [hget]
    simp [formatResult, applyAllow, hd, he]
  · intro q v o h hd he
    have hpost : on_post ex req = formatResult (ex.execute q v o) :=
      on_post_proceed ex req q v o h
    show applyAllow (on_post ex req) = Outcome.exn "RuntimeError"
    rw [hpost]
    simp [formatResult, applyAllow, hd, he]

/-- Witness for the amended C7 at a concrete GET request. -/
theorem c7_witness :
    getNorm exC7 reqC7 = NormOut.proceed "\x7bhello\x7d" (some (Json.str "")) none ∧
    handle exC7 Method.GET reqC7 = Outcome.exn "RuntimeError" :=
  ⟨rfl, (c7_amended_raise exC7 reqC7).1 "\x7bhello\x7d" (some (Json.str "")) none rfl rfl rfl⟩

def exC8 : Externals :=
  Externals.mk
    (fun s => if s == "\x7b\x22query\x22:\x22\x22\x7d"
              then some (Json.obj [("query", Json.str "")]) else none)
    (fun _ _ _ => ExecResult.mk none [])

def reqC8 : Req := Req.mk [] (some "application/json") (some 13) "\x7b\x22query\x22:\x22\x22\x7d"

/-- C8 as stated fails: a JSON POST whose body carries a query field equal to
the empty string reaches execution with the empty query — normalization
proceeds instead of failing with a 400. -/
theorem c8_counterexample :
    postNorm exC8 reqC8 = NormOut.proceed "" (some (Json.str "")) none ∧
    on_post exC8 reqC8 = formatResult (exC8.execute "" (some (Json.str "")) none) :=
  ⟨rfl, rfl⟩

/-- C8 (amended): every GET reaching execution carries a non-empty query, and
every POST reaching execution carries a non-empty query except when the query
was taken from a JSON body's query field whose str() form is empty, which is
passed to execution as the empty string. -/
theorem c8_amended_nonempty (ex : Externals) (req : Req) :
    (∀ q v o, getNorm ex req = NormOut.proceed q v o → q ≠ "") ∧
    (∀ q v o, postNorm ex req = NormOut.proceed q v o →
      q ≠ "" ∨ (contentTypeContains req "application/json" = true ∧
        ∃ pd vq, ex.jsonLoads req.body = some pd ∧ pyIndex "query" pd = Except.ok vq ∧
          pyStr vq = q)) := by
  constructor
  · intro q v o h
    obtain ⟨hq, hc⟩ := getNorm_proceed_inv ex req q v o h
    rw [hq]
    exact hasTruthyParam_ne req "query" ((Bool.and_eq_true _ _).mp hc).2
  · intro q v o h
    rcases eq_or_ne q "" with hq | hq
    · subst hq
      cases hv : hasTruthyParam req "variables" with
      | false =>
        rw [postNorm_novars ex req hv] at h
        rcases postBranch_q_source _ _ _ _ _ _ _ _ h with h1 | h2 | h3
        · exact absurd rfl (urlQuery_ne req "" h1)
        · exact Or.inr h2
        · exact absurd h3.2.1.symm h3.2.2
      | true =>
        cases hl : ex.jsonLoads (paramVal req "variables") with
        | none => rw [postNorm_vars_bad ex req hv hl] at h; cases h
        | some j =>
          rw [postNorm_vars_ok ex req j hv hl] at h
          rcases postBranch_q_source _ _ _ _ _ _ _ _ h with h1 | h2 | h3
          · exact absurd rfl (urlQuery_ne req "" h1)
          · exact Or.inr h2
          · exact absurd h3.2.1.symm h3.2.2
    · exact Or.inl hq

def exC8w : Externals := Externals.mk (fun _ => none) (fun _ _ _ => ExecResult.mk none [])

def reqC8w : Req := Req.mk [("query", "\x7bhello\x7d")] none none ""

/-- Witness for the amended C8: a GET request that reaches execution carries
its non-empty query. -/
theorem c8_witness :
    getNorm exC8w reqC8w = NormOut.proceed "\x7bhello\x7d" (some (Json.str "")) none ∧
    "\x7bhello\x7d" ≠ "" :=
  ⟨rfl, (c8_amended_nonempty exC8w reqC8w).1 "\x7bhello\x7d" (some (Json.str "")) none rfl⟩

/-- C10: on the JSON-body POST path a body query value of any JSON type is
accepted whenever its key is present, and body query and operationName values
are str()-coerced before use: a non-string query value (such as the number
42) is not rejected — its stringified form becomes the executed query text,
and a truthy operationName value likewise becomes its stringified form. -/
theorem c10_body_coercion (ex : Externals) (req : Req) (kvs : List (String × Json)) (vq : Json)
    (hct : contentTypeContains req "application/json" = true)
    (hq0 : urlQuery req = none)
    (hv0 : hasTruthyParam req "variables" = false)
    (ho0 : hasTruthyParam req "operationName" = false)
    (hlen : contentLengthZero req = false)
    (hload : ex.jsonLoads req.body = some (Json.obj kvs))
    (hqk : List.lookup "query" kvs = some vq)
    (hnv : List.lookup "variables" kvs = none) :
    (List.lookup "operationName" kvs = none →
      postNorm ex req = NormOut.proceed (pyStr vq) (some (Json.str "")) none ∧
      on_post ex req = formatResult (ex.execute (pyStr vq) (some (Json.str "")) none)) ∧
    (∀ vo, List.lookup "operationName" kvs = some vo → pyTruthy vo = true →
      postNorm ex req = NormOut.proceed (pyStr vq) (some (Json.str "")) (some (pyStr vo)) ∧
      on_post ex req =
        formatResult (ex.execute (pyStr vq) (some (Json.str "")) (some (pyStr vo)))) := by
  have huo : urlOpName req = none := by simp [urlOpName, ho0]
  have hstep : postNorm ex req = postJson ex (Json.obj kvs) none none none := by
    rw [postNorm_novars ex req hv0,
        postBranch_json_ok ex req _ _ _ _ hct hlen hload, hq0, huo]
  have htr : pyTruthy (Json.obj kvs) = true := lookup_some_truthy _ _ _ hqk
  have hcq : pyContains "query" (Json.obj kvs) = Except.ok true := by
    simp [pyContains, lookup_some_any "query" vq kvs hqk]
  have hiq : pyIndex "query" (Json.obj kvs) = Except.ok vq := by simp [pyIndex, hqk]
  have hcv : pyContains "variables" (Json.obj kvs) = Except.ok false := by
    simp [pyContains, lookup_none_any "variables" kvs hnv]
  have hstep2 : postJson ex (Json.obj kvs) none none none =
      postJsonOp (Json.obj kvs) (pyStr vq) (some (Json.str "")) none := by
    simp [postJson, htr, hcq, hiq, postJsonVars, hcv]
  constructor
  · intro hno
    have hco : pyContains "operationName" (Json.obj kvs) = Except.ok false := by
      simp [pyContains, lookup_none_any "operationName" kvs hno]
    have hnorm : postNorm ex req = NormOut.proceed (pyStr vq) (some (Json.str "")) none := by
      rw [hstep, hstep2]
      simp [postJsonOp, hco]
    exact ⟨hnorm, on_post_proceed ex req _ _ _ hnorm⟩
  · intro vo hvo hvt
    have hco : pyContains "operationName" (Json.obj kvs) = Except.ok true := by
      simp [pyContains, lookup_some_any "operationName" vo kvs hvo]
    have hio : pyIndex "operationName" (Json.obj kvs) = Except.ok vo := by
      simp [pyIndex, hvo]
    have hnorm : postNorm ex req =
        NormOut.proceed (pyStr vq) (some (Json.str "")) (some (pyStr vo)) := by
      rw [hstep, hstep2]
      simp [postJsonOp, hco, hio, hvt]
    exact ⟨hnorm, on_post_proceed ex req _ _ _ hnorm⟩

def exC10 : Externals :=
  Externals.mk
    (fun s => if s == "\x7b\x22query\x22:42\x7d"
              then some (Json.obj [("query", Json.num 42)]) else none)
    (fun q _ _ => ExecResult.mk (some (Json.obj [("got", Json.str q)])) [])

def reqC10 : Req := Req.mk [] (some "application/json") (some 12) "\x7b\x22query\x22:42\x7d"

/-- Witness for C10: a body whose query field is the number 42 normalizes to
executing the query text 42. -/
theorem c10_witness :
    pyStr (Json.num 42) = "42" ∧
    postNorm exC10 reqC10 = NormOut.proceed "42" (some (Json.str "")) none :=
  ⟨rfl, ((c10_body_coercion exC10 reqC10 [("query", Json.num 42)] (Json.num 42)
      rfl rfl rfl rfl rfl rfl rfl rfl).1 rfl).1⟩
